import Mathlib

/-!
Shallow embedding of the workstack sequencing engine of this repository
(class WorkstackLogic in logic/workstack_logic.py).

The Python class is a small cooperative scheduler: a mutable list of
actions (the "stack") indexed by a cursor sp, replayed once per target of
a target list, with a per-target key/value result store.  The methods
do_action, run_next_action, do_next_target and the failure wrapper named
under-score run call each other re-entrantly; this mutual recursion is
embedded as one fuel-indexed interpreter (step) with a mode tag, one mode
per Python method, so that the deep re-entrant call structure of the
source - including the frames that resume after a nested recovery - is
modelled exactly.  Fuel exhaustion is reported as a distinct result
(RunRes.out), never confused with normal termination or a raised
exception.

Modelling conventions:
  - Python exceptions are the err constructor of RunRes, carrying the
    mutated object state at raise time (Python mutations are not rolled
    back by an exception).
  - External callables invoked by a call action are abstracted as an
    environment CallEnv from a function id to a state transformer that
    may fail; argument lists are absorbed into the environment function.
  - self.log.info / warn / error / debug calls, timer starts, the
    optimiser request of goto_poi and each read of stack[sp] are recorded
    in an event trace (the dispatch event marks the read of stack[sp] at
    the top of do_action, i.e. one event per dispatched instruction).
  - Scalar result values are embedded as Int; the 0.0 default of fetch
    and save is the integer 0.
-/

namespace Workstack

/-- The action forms dispatched by do_action (workstack_logic.py lines
178-211): the wait strings, the two control strings, the three tuple
forms (log, timer, call-with-description) and a bare callable.  Call
arguments are absorbed into the call environment, so a callable is
identified by a numeric function id. -/
inductive Action where
  | wait
  | waitTimer
  | waitPulse
  | waitRefocus
  | startAgain
  | nextTarget
  | logA (msg : String)
  | timerA (secs : Nat)
  | callA (desc : String) (fid : Nat)
  | bare (fid : Nat)
deriving DecidableEq, Repr

/-- Observable events of a run: the read of stack[sp] at the top of
do_action (dispatch i), an invocation of an external callable with the
current target, a log line, a timer start, the set_position call of the
refocused slot, and the optimise_poi request of goto_poi. -/
inductive Ev where
  | dispatch (i : Nat)
  | call (fid : Nat) (tgt : String)
  | log (m : String)
  | timerStart (secs : Nat)
  | setPos
  | optimise (tgt : String)
deriving DecidableEq, Repr

/-- Python exception kinds raised by the embedded code paths. -/
inductive PyErr where
  | indexError
  | typeError
  | keyError
deriving DecidableEq, Repr

/-- The instance state of WorkstackLogic (fields set in __init__,
workstack_logic.py lines 55-70), plus the event trace. -/
structure WState where
  targets : List String
  actions : List Action
  stack : List Action
  store : List (String × List (String × Int))
  save_values : List String
  sp : Nat
  running : Bool
  target_index : Nat
  multipleTargets : Bool
  waiting_on : String
  timer_duration : Nat
  trace : List Ev
deriving DecidableEq, Repr

/-- Result of running a fragment of the scheduler: normal return (ok),
a propagating Python exception (err, with the state at raise time), or
fuel exhaustion of the embedding (out, with the state at the cut). -/
inductive RunRes where
  | ok (s : WState)
  | err (e : PyErr) (s : WState)
  | out (s : WState)
deriving DecidableEq, Repr

/-- Environment of external callables: function id to a state
transformer that either returns the new state or raises, carrying the
state at raise time. -/
def CallEnv := Nat → WState → Except (PyErr × WState) WState

/-- Append one event to the trace. -/
def addEv (s : WState) (e : Ev) : WState :=
  { s with trace := s.trace ++ [e] }

/-- Lookup in a name-to-value map embedded as an association list
(Python dict with insertion order). -/
def mapLookup : List (String × Int) → String → Option Int
  | [], _ => none
  | (k, v) :: rest, n => if k = n then some v else mapLookup rest n

/-- Upsert into a name-to-value map; a new key is appended at the end,
as in a Python dict. -/
def mapSet : List (String × Int) → String → Int → List (String × Int)
  | [], n, v => [(n, v)]
  | (k, w) :: rest, n, v =>
    if k = n then (k, v) :: rest else (k, w) :: mapSet rest n v

/-- Lookup a target key in the result store. -/
def storeLookup : List (String × List (String × Int)) → String →
    Option (List (String × Int))
  | [], _ => none
  | (k, m) :: rest, t => if k = t then some m else storeLookup rest t

/-- The idiom `if t not in self._store.keys(): self._store[t] = dict()`
(workstack_logic.py lines 134-135, 152-153): add an empty map for a new
target key, at the end, as in a Python dict. -/
def storeEnsure : List (String × List (String × Int)) → String →
    List (String × List (String × Int))
  | [], t => [(t, [])]
  | (k, m) :: rest, t =>
    if k = t then (k, m) :: rest else (k, m) :: storeEnsure rest t

/-- Upsert self._store[t][n] = v. -/
def storeSet : List (String × List (String × Int)) → String → String →
    Int → List (String × List (String × Int))
  | [], t, n, v => [(t, [(n, v)])]
  | (k, m) :: rest, t, n, v =>
    if k = t then (k, mapSet m n v) :: rest else (k, m) :: storeSet rest t n v

/-- current_target (lines 142-146): the indexed target when
multipleTargets is set, else the synthetic key. -/
def current_target (s : WState) : String :=
  if s.multipleTargets then s.targets.getD s.target_index "" else "_"

/-- stop_work (lines 161-162). -/
def stop_work (s : WState) : WState :=
  { s with running := false }

/-- reset_stack (lines 164-166): cursor to 0, stack rebuilt from the
actions template. -/
def reset_stack (s : WState) : WState :=
  { s with sp := 0, stack := s.actions }

/-- start_timer (lines 286-288): records the duration and emits the
start-timer signal (the actual QTimer is an external collaborator). -/
def start_timer (secs : Nat) (s : WState) : WState :=
  addEv { s with timer_duration := secs } (.timerStart secs)

/-- advance_sp (lines 227-243).  At the end of the stack: finish, or
move to the next target and reset; otherwise increment the cursor.  The
Python comparisons sp >= len(stack)-1 and target_index >= len(targets)-1
coincide with the truncated Nat subtractions used here (for an empty
list Python compares against -1, which is always true, as is <= against
0 here). -/
def advance_sp (s : WState) : WState :=
  if s.stack.length - 1 ≤ s.sp then
    let s1 := addEv s (.log "Reached end of stack")
    if s1.multipleTargets then
      if s1.targets.length - 1 ≤ s1.target_index then
        stop_work (addEv s1 (.log "Finished"))
      else
        let s2 := { s1 with target_index := s1.target_index + 1 }
        reset_stack (addEv s2 (.log ("Moving on to " ++ current_target s2)))
    else
      stop_work (addEv s1 (.log "Finished"))
  else
    { s with sp := s.sp + 1 }

/-- Display name of a bare callable: the under-score run wrapper is
invoked with the callable itself as the description, so the embedding
prints the function id. -/
def fname (fid : Nat) : String := "fn" ++ toString fid

/-- Mode tag selecting which of the four mutually re-entrant methods a
step interprets: do_action, run_next_action, do_next_target, or the
failure wrapper around an external call (the method named under-score
run, lines 168-176). -/
inductive Fn where
  | doAction
  | runNext
  | nextTgt
  | runC (desc : String) (fid : Nat)
deriving DecidableEq, Repr

/-- The fuel-indexed interpreter of the re-entrant method cycle of
WorkstackLogic.  Each branch is a direct transcription of one method:

  doAction  = do_action (lines 178-211): if running, read stack[sp]
    (IndexError when out of range, as for the empty stack), then branch
    on the action form.  Wait forms set waiting_on and return; the
    restart string resets the stack and calls run_next_action; the
    next-target string logs and calls do_next_target; the tuple forms
    log / start a timer / run the callable under the failure wrapper and
    then call run_next_action; a bare callable runs under the failure
    wrapper and then calls run_next_action.  Not running: plain return.

  runNext   = run_next_action (lines 245-248): if running, advance_sp
    then do_action.

  nextTgt   = do_next_target (lines 148-159): with multiple targets and
    targets remaining, advance the target index, create its store entry,
    reset the stack, log, and re-enter do_action; otherwise log and
    stop_work.

  runC      = the failure wrapper (lines 168-176): invoke the external
    callable; on any exception, log the failure with the description and
    call do_next_target (an exception raised inside that recovery
    propagates, as in Python where it is outside the try block). -/
def step (env : CallEnv) : Nat → Fn → WState → RunRes
  | 0, _, s => .out s
  | fuel + 1, .doAction, s =>
    if s.running then
      match s.stack[s.sp]? with
      | none => .err .indexError s
      | some a =>
        let s1 := addEv s (.dispatch s.sp)
        match a with
        | .wait => .ok { s1 with waiting_on := "" }
        | .waitTimer => .ok { s1 with waiting_on := "timer" }
        | .waitPulse => .ok { s1 with waiting_on := "pulse upload" }
        | .waitRefocus => .ok { s1 with waiting_on := "refocus" }
        | .startAgain => step env fuel .runNext (reset_stack s1)
        | .nextTarget =>
          step env fuel .nextTgt (addEv s1 (.log "Moving to next target"))
        | .logA m => step env fuel .runNext (addEv s1 (.log m))
        | .timerA secs =>
          step env fuel .runNext
            (start_timer secs
              (addEv s1 (.log ("Waiting for " ++ toString secs ++ " s"))))
        | .callA d fid =>
          match step env fuel (.runC d fid) (addEv s1 (.log ("Doing: " ++ d))) with
          | .ok s2 => step env fuel .runNext s2
          | r => r
        | .bare fid =>
          match step env fuel (.runC (fname fid) fid) s1 with
          | .ok s2 => step env fuel .runNext s2
          | r => r
    else .ok s
  | fuel + 1, .runNext, s =>
    if s.running then step env fuel .doAction (advance_sp s) else .ok s
  | fuel + 1, .nextTgt, s =>
    if s.multipleTargets = true ∧ s.target_index < s.targets.length - 1 then
      let s1 := { s with target_index := s.target_index + 1 }
      let s2 := { s1 with store := storeEnsure s1.store (current_target s1) }
      let s3 := reset_stack s2
      step env fuel .doAction
        (addEv s3 (.log ("Skipping to next: " ++ current_target s3)))
    else
      .ok (stop_work (addEv s (.log "Skipping to next, but finished")))
  | fuel + 1, .runC desc fid, s =>
    match env fid (addEv s (.call fid (current_target s))) with
    | .ok s2 => .ok s2
    | .error (_e, s2) =>
      step env fuel .nextTgt
        (addEv s2 (.log ("Running " ++ desc ++ " failed!")))

/-- do_action (lines 178-211), as a wrapper over the interpreter. -/
def do_action (env : CallEnv) (fuel : Nat) (s : WState) : RunRes :=
  step env fuel .doAction s

/-- run_next_action (lines 245-248). -/
def run_next_action (env : CallEnv) (fuel : Nat) (s : WState) : RunRes :=
  step env fuel .runNext s

/-- do_next_target (lines 148-159). -/
def do_next_target (env : CallEnv) (fuel : Nat) (s : WState) : RunRes :=
  step env fuel .nextTgt s

/-- The pure state mutations of start_work (lines 129-140) before its
do_action call: with a non-empty target list, set multipleTargets,
rewind the target index and create the first target's store entry;
always rebuild the stack from the actions template, rewind the cursor
and set running. -/
def start_setup (s : WState) : WState :=
  let s1 :=
    if s.targets.length > 0 then
      let sA := { s with multipleTargets := true, target_index := 0 }
      { sA with store := storeEnsure sA.store (current_target sA) }
    else s
  { s1 with stack := s1.actions, sp := 0, running := true }

/-- start_work (lines 129-140): the setup mutations followed by one
synchronous do_action. -/
def start_work (env : CallEnv) (fuel : Nat) (s : WState) : RunRes :=
  do_action env fuel (start_setup s)

/-- timer_fired slot (lines 103-106): accepted when waiting on nothing
in particular or on the timer; otherwise nothing happens. -/
def timer_fired (env : CallEnv) (fuel : Nat) (s : WState) : RunRes :=
  if s.waiting_on = "" ∨ s.waiting_on = "timer" then
    run_next_action env fuel { s with waiting_on := "" }
  else .ok s

/-- refocused slot (lines 108-113): logs and forwards set_position
unconditionally, then the same guard for the refocus event. -/
def refocused (env : CallEnv) (fuel : Nat) (s : WState) : RunRes :=
  let s1 := addEv (addEv s (.log "Finished refocusing")) .setPos
  if s1.waiting_on = "" ∨ s1.waiting_on = "refocus" then
    run_next_action env fuel { s1 with waiting_on := "" }
  else .ok s1

/-- pulse_sequence_built slot (lines 115-119): logs unconditionally,
then the same guard for the pulse upload event. -/
def pulse_sequence_built (env : CallEnv) (fuel : Nat) (s : WState) : RunRes :=
  let s1 := addEv s (.log "Pulse sequence uploaded")
  if s1.waiting_on = "" ∨ s1.waiting_on = "pulse upload" then
    run_next_action env fuel { s1 with waiting_on := "" }
  else .ok s1

/-- finished_saving slot (lines 121-123): logs and advances with no
waiting_on check at all. -/
def finished_saving (env : CallEnv) (fuel : Nat) (s : WState) : RunRes :=
  run_next_action env fuel (addEv s (.log "Finished saving"))

/-- finished_image slot (lines 125-127): logs and advances with no
waiting_on check at all. -/
def finished_image (env : CallEnv) (fuel : Nat) (s : WState) : RunRes :=
  run_next_action env fuel (addEv s (.log "Finished image"))

/-- store (lines 250-254): upsert under the current target, creating
its map if absent. -/
def store (s : WState) (name : String) (v : Int) : WState :=
  { s with store := storeSet s.store (current_target s) name v }

/-- Result of fetch: a value with the state on normal return, a
propagating exception, or fuel exhaustion inside the nested recovery. -/
inductive FetchRes where
  | ok (v : Int) (s : WState)
  | err (e : PyErr) (s : WState)
  | out (s : WState)
deriving DecidableEq, Repr

/-- fetch (lines 256-264).  When the current target has no store entry:
warn, run do_next_target, and then fall through to the final return,
which reads the (new) current target's map and raises KeyError when the
target or name is absent.  When the entry exists but the name is
absent: warn and return the 0.0 default.  Otherwise return the stored
value. -/
def fetch (env : CallEnv) (fuel : Nat) (name : String) (s : WState) : FetchRes :=
  let t := current_target s
  match storeLookup s.store t with
  | none =>
    match do_next_target env fuel (addEv s (.log ("Missing key! " ++ t))) with
    | .ok s2 =>
      match storeLookup s2.store (current_target s2) with
      | none => .err .keyError s2
      | some m =>
        match mapLookup m name with
        | none => .err .keyError s2
        | some v => .ok v s2
    | .err e s2 => .err e s2
    | .out s2 => .out s2
  | some m =>
    match mapLookup m name with
    | none => .ok 0 (addEv s (.log ("Missing key! " ++ t ++ " " ++ name)))
    | some v => .ok v s

/-- Python string less-than: lexicographic comparison of code points. -/
def strLtL : List Char → List Char → Bool
  | [], [] => false
  | [], _ :: _ => true
  | _ :: _, [] => false
  | a :: as, b :: bs =>
    if a.toNat < b.toNat then true
    else if b.toNat < a.toNat then false
    else strLtL as bs

/-- a is at most b in the Python string order. -/
def strLe (a b : String) : Bool := ! strLtL b.data a.data

/-- Insert into an ascending list of strings: the elementary step of
the sort performed by sorted() in save. -/
def insSorted (x : String) : List String → List String
  | [] => [x]
  | y :: ys => if strLe x y then x :: y :: ys else y :: insSorted x ys

/-- Ascending insertion sort of string keys: the order produced by
sorted() in save (line 272). -/
def sortStrings : List String → List String
  | [] => []
  | x :: xs => insSorted x (sortStrings xs)

/-- The sorted target keys of the result store: save (line 272) takes
sorted(self._store.items() first components). -/
def save_rows (s : WState) : List String :=
  sortStrings (s.store.map Prod.fst)

/-- One output column of save (line 275): over the sorted stored
targets, the stored value for name k, or the 0.0 default when the name
is absent for that target.  (The outer default for an absent target is
unreachable for keys drawn from the store itself.) -/
def save_col (s : WState) (k : String) : List Int :=
  (save_rows s).map (fun t =>
    match storeLookup s.store t with
    | some m =>
      match mapLookup m k with
      | some v => v
      | none => 0
    | none => 0)

/-- save (lines 266-280), as the data table it hands to the save logic:
the Target column of sorted stored target keys, then one column per
save_values name.  It raises nothing; absent values become 0.0. -/
def save (s : WState) : List String × List (String × List Int) :=
  (save_rows s, s.save_values.map (fun k => (k, save_col s k)))

/-- Python list.insert requires two positional arguments (index and
object); called with a single argument the interpreter raises TypeError
before any mutation.  insert_wait (lines 313-314) is exactly such a
call: self.stack.insert(the wait string) with the index missing. -/
def list_insert_one_arg (_stack : List Action) (_x : Action) :
    Except PyErr (List Action) :=
  .error .typeError

/-- insert_wait (lines 313-314): the single-argument list.insert call,
which always raises TypeError with the state unchanged. -/
def insert_wait (s : WState) : Except (PyErr × WState) WState :=
  match list_insert_one_arg s.stack .wait with
  | .ok st => .ok { s with stack := st }
  | .error e => .error (e, s)

/-- goto_poi (lines 316-319): request the optimiser on the current
target (an external collaborator, recorded as an event), then
insert_wait - which always raises. -/
def goto_poi (s : WState) : Except (PyErr × WState) WState :=
  insert_wait (addEv s (.optimise (current_target s)))

/-- The freshly constructed module state (__init__, lines 55-70) with
given actions and targets templates loaded. -/
def init (actions : List Action) (targets : List String) : WState :=
  { targets := targets
    actions := actions
    stack := []
    store := []
    save_values := []
    sp := 0
    running := false
    target_index := 0
    multipleTargets := false
    waiting_on := ""
    timer_duration := 60
    trace := [] }

/-- Project the state out of a run result. -/
def resState : RunRes → WState
  | .ok s => s
  | .err _ s => s
  | .out s => s

/-- Did the run return normally? -/
def resIsOk : RunRes → Bool
  | .ok _ => true
  | _ => false

/-- The exception of a run result, when one propagated. -/
def resErr : RunRes → Option PyErr
  | .err e _ => some e
  | _ => none

/-- How many times the callable with the given id was invoked. -/
def callCount (s : WState) (fid : Nat) : Nat :=
  (s.trace.filter (fun e =>
    match e with
    | .call f _ => f == fid
    | _ => false)).length

/-- The cursor positions read by do_action, in dispatch order. -/
def dispatches (s : WState) : List Nat :=
  s.trace.filterMap (fun e =>
    match e with
    | .dispatch i => some i
    | _ => none)

/-- Environment in which every external callable succeeds and leaves
the state unchanged. -/
def okEnv : CallEnv := fun _ s => .ok s

/-- Did fetch raise? -/
def fetchIsErr : FetchRes → Bool
  | .err _ _ => true
  | _ => false

/-- The value fetch returned, when it returned normally. -/
def fetchVal : FetchRes → Option Int
  | .ok v _ => some v
  | _ => none

/-- Environment for the C1 run: callable 0 raises when the current
target is A and succeeds otherwise; callable 1 always succeeds. -/
def failOnAEnv : CallEnv := fun fid s =>
  if fid = 0 ∧ current_target s = "A" then .error (.typeError, s) else .ok s

/-- C1 run: program of a call, a timer wait and a second call, over
targets A and B, where the first call raises on A only. -/
def c1run : RunRes :=
  start_work failOnAEnv 30 (init [.bare 0, .waitTimer, .bare 1] ["A", "B"])

/-- C2 program: call f, wait for the timer, call g (f is callable 0 and
g is callable 1). -/
def c2prog : List Action := [.bare 0, .waitTimer, .bare 1]

/-- C2: the run from start() up to the suspension. -/
def c2run1 : RunRes := start_work okEnv 20 (init c2prog [])

/-- C2: delivering the timer notification to the suspended engine. -/
def c2run2 : RunRes := timer_fired okEnv 20 (resState c2run1)

/-- C3: an engine suspended waiting on the timer event. -/
def c3susp : WState :=
  resState (start_work okEnv 20 (init [.bare 0, .waitTimer, .bare 1] []))

/-- C3: delivering the image-finished notification while the engine is
waiting on the timer event. -/
def c3run : RunRes := finished_image okEnv 20 c3susp

/-- C3 witness input: a reachable engine suspended waiting on the
refocus event (start() over a one-instruction refocus-wait program). -/
def c3wr : WState := resState (start_work okEnv 10 (init [.waitRefocus] []))

/-- C3 witness input: a reachable engine suspended waiting on the
timer event (start() over a one-instruction timer-wait program). -/
def c3wt : WState := resState (start_work okEnv 10 (init [.waitTimer] []))

/-- C4: an active run suspended at the second of two timer waits
(cursor 1), reached by start() and one timer notification. -/
def c4s : WState :=
  resState (timer_fired okEnv 10
    (resState (start_work okEnv 10 (init [.waitTimer, .waitTimer] []))))

/-- C4: calling start() again while that run is active. -/
def c4run : RunRes := start_work okEnv 10 c4s

/-- C5: a run of the program whose first instruction is the restart
string and whose second is a call. -/
def c5run : RunRes := start_work okEnv 20 (init [.startAgain, .bare 0] [])

/-- C5 witness input: a running state about to dispatch the restart
string, with a two-instruction actions template. -/
def c5w : WState :=
  { init [.waitTimer, .waitTimer] [] with running := true, stack := [.startAgain] }

/-- C6: targets B then A (deliberately not alphabetical), one
next-target instruction, one known result name. -/
def c6s0 : WState := { init [.nextTarget] ["B", "A"] with save_values := ["a"] }

/-- C6: the finished run over both targets. -/
def c6sF : WState := resState (start_work okEnv 20 c6s0)

/-- C7: a state whose current target (the synthetic key) has a result
map that lacks the name a. -/
def c7s : WState := { init [] [] with store := [("_", [("b", 5)])] }

/-- C8: start() on an empty program with one target. -/
def c8run : RunRes := start_work okEnv 10 (init [] ["A"])

/-- Environment whose callable 0 is goto_poi itself, as when goto_poi
is placed on the actions list. -/
def gotoPoiEnv : CallEnv := fun _ s => goto_poi s

/-- C10: a run whose single instruction calls goto_poi. -/
def c10run : RunRes := start_work gotoPoiEnv 10 (init [.bare 0] [])

/-- The lexicographic code-point order is asymmetric. -/
theorem strLtL_asymm (a : List Char) : ∀ b, strLtL a b = true → strLtL b a = false := by
  induction a with
  | nil => intro b h; cases b <;> simp [strLtL] at h ⊢
  | cons x xs ih =>
    intro b h
    cases b with
    | nil => simp [strLtL] at h
    | cons y ys =>
      by_cases h1 : x.toNat < y.toNat
      · have h2 : ¬ y.toNat < x.toNat := by omega
        simp [strLtL, h1, h2]
      · by_cases h2 : y.toNat < x.toNat
        · simp [strLtL, h1, h2] at h
        · simp [strLtL, h1, h2] at h ⊢
          exact ih ys h

/-- The lexicographic code-point order relates any strict pair through
any middle list: if x is below z then x is below y or y is below z. -/
theorem strLtL_split (x : List Char) :
    ∀ y z, strLtL x z = true → strLtL x y = true ∨ strLtL y z = true := by
  induction x with
  | nil =>
    intro y z h
    cases z with
    | nil => simp [strLtL] at h
    | cons c cs =>
      cases y with
      | nil => right; simp [strLtL]
      | cons b bs => left; simp [strLtL]
  | cons a as ih =>
    intro y z h
    cases z with
    | nil => simp [strLtL] at h
    | cons c cs =>
      cases y with
      | nil => right; simp [strLtL]
      | cons b bs =>
        by_cases hab : a.toNat < b.toNat
        · left; simp [strLtL, hab]
        · by_cases hba : b.toNat < a.toNat
          · right
            by_cases hac : a.toNat < c.toNat
            · have hbc : b.toNat < c.toNat := by omega
              simp [strLtL, hbc]
            · by_cases hca : c.toNat < a.toNat
              · simp [strLtL, hac, hca] at h
              · have hbc : b.toNat < c.toNat := by omega
                simp [strLtL, hbc]
          · by_cases hac : a.toNat < c.toNat
            · right
              have hbc : b.toNat < c.toNat := by omega
              simp [strLtL, hbc]
            · by_cases hca : c.toNat < a.toNat
              · simp [strLtL, hac, hca] at h
              · simp [strLtL, hac, hca] at h
                rcases ih bs cs h with h' | h'
                · left; simp [strLtL, hab, hba, h']
                · right
                  have hbc : ¬ b.toNat < c.toNat := by omega
                  have hcb : ¬ c.toNat < b.toNat := by omega
                  simp [strLtL, hbc, hcb, h']

/-- The Python string order is total. -/
theorem strLe_total (a b : String) : strLe a b = true ∨ strLe b a = true := by
  unfold strLe
  by_cases h : strLtL b.data a.data = true
  · right
    simp [strLtL_asymm _ _ h]
  · left
    simp [Bool.not_eq_true] at h
    simp [h]

/-- The Python string order is transitive. -/
theorem strLe_trans (a b c : String) (h1 : strLe a b = true)
    (h2 : strLe b c = true) : strLe a c = true := by
  unfold strLe at *
  simp [Bool.not_eq_true] at h1 h2 ⊢
  by_contra hca
  simp [Bool.not_eq_false] at hca
  rcases strLtL_split c.data b.data a.data hca with h' | h'
  · simp [h'] at h2
  · simp [h'] at h1

/-- Membership in an insertion step. -/
theorem mem_insSorted (x z : String) (l : List String) :
    z ∈ insSorted x l ↔ z = x ∨ z ∈ l := by
  induction l with
  | nil => simp [insSorted]
  | cons y ys ih =>
    by_cases h : strLe x y = true <;> simp [insSorted, h, ih] <;> tauto

/-- An insertion step grows the length by one. -/
theorem length_insSorted (x : String) (l : List String) :
    (insSorted x l).length = l.length + 1 := by
  induction l with
  | nil => rfl
  | cons y ys ih =>
    by_cases h : strLe x y = true <;> simp [insSorted, h, ih]

/-- An insertion step preserves ascending order. -/
theorem sorted_insSorted (x : String) (l : List String)
    (hl : l.Pairwise (fun a b => strLe a b = true)) :
    (insSorted x l).Pairwise (fun a b => strLe a b = true) := by
  induction l with
  | nil => simp [insSorted]
  | cons y ys ih =>
    rcases List.pairwise_cons.mp hl with ⟨hy, hys⟩
    by_cases h : strLe x y = true
    · simp only [insSorted, h, if_true]
      refine List.pairwise_cons.mpr ⟨?_, hl⟩
      intro z hz
      rcases List.mem_cons.mp hz with rfl | hz
      · exact h
      · exact strLe_trans x y z h (hy z hz)
    · simp only [insSorted, h, if_false]
      refine List.pairwise_cons.mpr ⟨?_, ih hys⟩
      intro z hz
      rcases (mem_insSorted x z ys).mp hz with heq | hz
      · rcases strLe_total x y with h1 | h1
        · exact absurd h1 h
        · rw [heq]
          exact h1
      · exact hy z hz

/-- The sort preserves length. -/
theorem length_sortStrings (l : List String) :
    (sortStrings l).length = l.length := by
  induction l with
  | nil => rfl
  | cons x xs ih => simp [sortStrings, length_insSorted, ih]

/-- The sort preserves membership. -/
theorem mem_sortStrings (z : String) (l : List String) :
    z ∈ sortStrings l ↔ z ∈ l := by
  induction l with
  | nil => simp [sortStrings]
  | cons x xs ih => simp [sortStrings, mem_insSorted, ih]

/-- The sort produces an ascending list. -/
theorem sorted_sortStrings (l : List String) :
    (sortStrings l).Pairwise (fun a b => strLe a b = true) := by
  induction l with
  | nil => simp [sortStrings]
  | cons x xs ih => exact sorted_insSorted x _ ih

/-- C1: evaluation of the scheduler at the failing input.  The claim
says a Call failure is recovered exactly as a next-target transition
with no wait state skipped.  In this run (call 0 raises on target A,
succeeds on target B) the failure is caught and logged and the recovery
moves to target B - but when the recovery suspends at the timer wait
(dispatch of cursor 1), the interrupted frame resumes and dispatches
cursor 2, invoking callable 1 although the wait was never notified: the
final state still has waiting_on = timer, yet callable 1 ran and the
run finished.  The dispatch list 0, 0, 1, 2 shows the extra dispatch
after the wait with no notification in between. -/
theorem C1_call_failure_skips_wait :
    resIsOk c1run = true ∧
    (resState c1run).running = false ∧
    (resState c1run).waiting_on = "timer" ∧
    Ev.log "Running fn0 failed!" ∈ (resState c1run).trace ∧
    callCount (resState c1run) 1 = 1 ∧
    dispatches (resState c1run) = [0, 0, 1, 2] := by decide

/-- C2: for the program call f, wait on the timer event, call g, with
an empty target list, start() invokes f exactly once and suspends with
waiting_on = timer and g not yet invoked; one timer notification clears
the wait, invokes g exactly once, and finishes the run (running
false). -/
theorem C2_suspend_resume :
    resIsOk c2run1 = true ∧
    (resState c2run1).waiting_on = "timer" ∧
    (resState c2run1).running = true ∧
    callCount (resState c2run1) 0 = 1 ∧
    callCount (resState c2run1) 1 = 0 ∧
    resIsOk c2run2 = true ∧
    (resState c2run2).running = false ∧
    (resState c2run2).waiting_on = "" ∧
    callCount (resState c2run2) 0 = 1 ∧
    callCount (resState c2run2) 1 = 1 := by decide

/-- C3 counterexample: the claim extends the drop-if-not-matching rule
to every notification source, but the image-finished slot never checks
waiting_on.  Here the engine is suspended waiting on the timer event;
delivering the image-finished notification is not a no-op: it advances
the cursor and invokes callable 1. -/
theorem C3_counterexample :
    c3susp.waiting_on = "timer" ∧
    c3susp.running = true ∧
    callCount c3susp 1 = 0 ∧
    resIsOk c3run = true ∧
    callCount (resState c3run) 1 = 1 ∧
    (resState c3run).sp ≠ c3susp.sp := by decide

/-- C3 (amended): the non-matching notification no-op holds for each of
the three sources that check waiting_on, source by source: whenever
waiting_on is neither empty (the any-event wait) nor that source's own
event name, the timer slot leaves the state completely unchanged, and
the refocus and pulse-upload slots change nothing but the log trace
(their log and set_position forwarding happen before the check); no
instruction is dispatched by any of the three.  Each conjunct applies
at reachable states, e.g. a timer notification arriving while the
engine waits on the refocus event, or a refocus or pulse notification
arriving while it waits on the timer event.  The image-finished and
saving-finished slots are excluded: they never check waiting_on (see
the counterexample). -/
theorem C3_checked_notify_noop (env : CallEnv) (fuel : Nat) (s : WState) :
    (s.waiting_on ≠ "" → s.waiting_on ≠ "timer" →
      timer_fired env fuel s = .ok s) ∧
    (s.waiting_on ≠ "" → s.waiting_on ≠ "refocus" →
      refocused env fuel s =
        .ok (addEv (addEv s (.log "Finished refocusing")) .setPos)) ∧
    (s.waiting_on ≠ "" → s.waiting_on ≠ "pulse upload" →
      pulse_sequence_built env fuel s =
        .ok (addEv s (.log "Pulse sequence uploaded"))) := by
  refine ⟨?_, ?_, ?_⟩
  · intro h0 ht
    simp [timer_fired, h0, ht]
  · intro h0 hr
    simp [refocused, addEv, h0, hr]
  · intro h0 hp
    simp [pulse_sequence_built, addEv, h0, hp]

/-- C3 witness: the amended no-ops at reachable suspended states - the
timer notification delivered to an engine waiting on the refocus event,
and the refocus and pulse-upload notifications delivered to an engine
waiting on the timer event. -/
theorem C3_checked_notify_noop_witness :
    timer_fired okEnv 5 c3wr = .ok c3wr ∧
    refocused okEnv 5 c3wt =
      .ok (addEv (addEv c3wt (.log "Finished refocusing")) .setPos) ∧
    pulse_sequence_built okEnv 5 c3wt =
      .ok (addEv c3wt (.log "Pulse sequence uploaded")) :=
  ⟨(C3_checked_notify_noop okEnv 5 c3wr).1 (by decide) (by decide),
   (C3_checked_notify_noop okEnv 5 c3wt).2.1 (by decide) (by decide),
   (C3_checked_notify_noop okEnv 5 c3wt).2.2 (by decide) (by decide)⟩

/-- C4 counterexample: start_work invoked while a run is active (the
engine is suspended at cursor 1 with running true) does not fail - it
returns normally and the cursor of the active run is rewound to 0, so
the active run's state is not left unchanged and no AlreadyRunningError
path exists. -/
theorem C4_counterexample :
    c4s.running = true ∧
    resErr c4run = none ∧
    resIsOk c4run = true ∧
    c4s.sp = 1 ∧
    (resState c4run).sp = 0 := by decide

/-- C4 (amended): start_work performs no already-running check at all:
its result is entirely independent of the running flag, and it
unconditionally rebuilds the stack from the actions template, rewinds
the cursor to 0, sets running, and dispatches immediately - restarting
the run rather than raising. -/
theorem C4_start_ignores_running (env : CallEnv) (fuel : Nat) (s : WState) :
    start_work env fuel s = start_work env fuel { s with running := false } ∧
    (start_setup s).sp = 0 ∧
    (start_setup s).running = true ∧
    (start_setup s).stack = s.actions := by
  obtain ⟨tg, ac, st, sto, sv, sp, run, ti, mt, w, td, tr⟩ := s
  refine ⟨?_, rfl, rfl, ?_⟩
  · by_cases h : tg.length > 0 <;>
      simp [start_work, start_setup, current_target, h]
  · by_cases h : tg.length > 0 <;> simp [start_setup, h]

/-- C5 counterexample: program with the restart string at index 0 and a
call at index 1.  Per the claim, the instruction dispatched right after
the restart executes would be index 0 of the freshly reset list (the
restart itself, so the call would never run).  The code instead
dispatches index 1: the dispatch list of the whole run is 0 then 1, the
call runs once, and the run finishes. -/
theorem C5_counterexample :
    resIsOk c5run = true ∧
    (resState c5run).running = false ∧
    callCount (resState c5run) 0 = 1 ∧
    dispatches (resState c5run) = [0, 1] := by decide

/-- C5 (amended): executing the restart string resets the cursor to 0
and rebuilds the stack from the actions template, but then
run_next_action advances the cursor before dispatching, so (for a
template of at least two instructions) the next instruction dispatched
is the one at index 1 of the reset list, not index 0. -/
theorem C5_restart_dispatches_index_one (env : CallEnv) (fuel : Nat)
    (s : WState) (hr : s.running = true)
    (ha : s.stack[s.sp]? = some .startAgain) (h2 : 2 ≤ s.actions.length) :
    do_action env (fuel + 2) s =
      do_action env fuel
        { s with stack := s.actions, sp := 1,
                 trace := s.trace ++ [.dispatch s.sp] } := by
  have hlen : ¬ (s.actions.length - 1 ≤ 0) := by omega
  simp only [do_action, step, hr, if_true, ha]
  simp only [reset_stack, addEv, advance_sp, hlen, if_false, hr, if_true]

/-- C5 witness: the amended restart transition at a concrete state. -/
theorem C5_restart_dispatches_index_one_witness :
    do_action okEnv 5 c5w =
      do_action okEnv 3
        { c5w with stack := c5w.actions, sp := 1,
                   trace := c5w.trace ++ [.dispatch c5w.sp] } :=
  C5_restart_dispatches_index_one okEnv 3 c5w (by decide) (by decide)
    (by decide)

/-- C6 counterexample: targets B then A, both visited.  The claim says
the rows appear in Targets-list order; the code emits the sorted store
keys instead, so the Target column is A then B, not B then A. -/
theorem C6_counterexample :
    resIsOk (start_work okEnv 20 c6s0) = true ∧
    c6sF.targets = ["B", "A"] ∧
    c6sF.store.map Prod.fst = ["B", "A"] ∧
    (save c6sF).1 = ["A", "B"] ∧
    (save c6sF).1 ≠ c6sF.targets := by decide

/-- C6 (amended): save emits exactly one row per target present in the
result store (not per Targets entry), the rows are the store keys in
sorted ascending order (not Targets-list order), there is one column
per known name in save_values order, and every (target, name) cell
holds the stored value or the 0.0 sentinel when that pair was never
stored - the export is total and never fails on a missing entry. -/
theorem C6_save_shape (s : WState) :
    (save s).1.length = s.store.length ∧
    (∀ t, t ∈ (save s).1 ↔ t ∈ s.store.map Prod.fst) ∧
    (save s).1.Pairwise (fun a b => strLe a b = true) ∧
    (save s).2.map Prod.fst = s.save_values ∧
    (∀ k col, (k, col) ∈ (save s).2 →
      col.length = (save s).1.length ∧
      ∀ i (hi : i < col.length) (hj : i < (save s).1.length),
        col.get ⟨i, hi⟩ =
          (match storeLookup s.store ((save s).1.get ⟨i, hj⟩) with
           | some m =>
             match mapLookup m k with
             | some v => v
             | none => 0
           | none => 0)) := by
  refine ⟨?_, ?_, ?_, ?_, ?_⟩
  · simpa [save, save_rows] using length_sortStrings (s.store.map Prod.fst)
  · intro t
    simpa [save, save_rows] using mem_sortStrings t (s.store.map Prod.fst)
  · exact sorted_sortStrings _
  · have hmf : ∀ l : List String,
        List.map (Prod.fst ∘ fun k => (k, save_col s k)) l = l := by
      intro l
      induction l with
      | nil => rfl
      | cons a as ih => simp [ih, Function.comp]
    simpa [save] using hmf s.save_values
  · intro k col hmem
    simp only [save, List.mem_map] at hmem
    obtain ⟨k0, hk0, heq⟩ := hmem
    have hk : k0 = k := congrArg Prod.fst heq
    have hcol : save_col s k0 = col := congrArg Prod.snd heq
    subst hk
    subst hcol
    refine ⟨by simp [save_col, save], ?_⟩
    intro i hi hj
    simp [save_col, save, List.get_eq_getElem, List.getElem_map]

/-- C6 witness: the amended export shape at the concrete finished run
over targets B and A, exercising the per-column clause for the known
name a. -/
theorem C6_save_shape_witness :
    (save c6sF).1.length = c6sF.store.length ∧
    (save_col c6sF "a").length = (save c6sF).1.length :=
  ⟨(C6_save_shape c6sF).1,
   ((C6_save_shape c6sF).2.2.2.2 "a" (save_col c6sF "a") (by decide)).1⟩

/-- C7 counterexample: the current target's result map exists but lacks
the requested name.  The claim says fetch fails rather than silently
returning a default; the code logs a warning and returns the 0.0
default with no error. -/
theorem C7_counterexample :
    fetchIsErr (fetch okEnv 5 "a" c7s) = false ∧
    fetchVal (fetch okEnv 5 "a" c7s) = some 0 ∧
    fetch okEnv 5 "a" c7s =
      .ok 0 (addEv c7s (.log "Missing key! _ a")) := by decide

/-- C7 (amended): when the current target's map exists but lacks the
name, fetch logs a warning and returns the 0.0 default instead of
failing; only when the current target has no map at all does fetch
perform the same abandon-this-target transition as a Call failure
(do_next_target) and then read the name under the new current target,
raising KeyError when that is also absent. -/
theorem C7_fetch_behaviour (env : CallEnv) (fuel : Nat) (name : String)
    (s : WState) :
    (∀ m, storeLookup s.store (current_target s) = some m →
      mapLookup m name = none →
      fetch env fuel name s =
        .ok 0 (addEv s
          (.log ("Missing key! " ++ current_target s ++ " " ++ name)))) ∧
    (storeLookup s.store (current_target s) = none →
      ∀ s2,
        do_next_target env fuel
          (addEv s (.log ("Missing key! " ++ current_target s))) = .ok s2 →
        (storeLookup s2.store (current_target s2) = none →
          fetch env fuel name s = .err .keyError s2) ∧
        (∀ m2, storeLookup s2.store (current_target s2) = some m2 →
          mapLookup m2 name = none →
          fetch env fuel name s = .err .keyError s2) ∧
        (∀ m2 v, storeLookup s2.store (current_target s2) = some m2 →
          mapLookup m2 name = some v →
          fetch env fuel name s = .ok v s2)) := by
  constructor
  · intro m h1 h2
    simp only [fetch, h1, h2]
  · intro h1 s2 h2
    refine ⟨?_, ?_, ?_⟩
    · intro h3
      simp only [fetch, h1, h2, h3]
    · intro m2 h3 h4
      simp only [fetch, h1, h2, h3, h4]
    · intro m2 v h3 h4
      simp only [fetch, h1, h2, h3, h4]

/-- C7 witness: the amended default-value branch at the concrete state
whose synthetic target has a map without the name a. -/
theorem C7_fetch_behaviour_witness :
    fetch okEnv 5 "a" c7s =
      .ok 0 (addEv c7s (.log ("Missing key! " ++ current_target c7s ++ " " ++ "a"))) :=
  (C7_fetch_behaviour okEnv 5 "a" c7s).1 [("b", 5)] (by decide) (by decide)

/-- C8 counterexample: start() on an empty program does not complete
quietly in a finished state - reading stack[0] raises IndexError out of
start_work, and the engine is left with running true and nothing
dispatched. -/
theorem C8_counterexample :
    resErr c8run = some .indexError ∧
    (resState c8run).running = true ∧
    dispatches (resState c8run) = [] := by decide

/-- C8 (amended): for every state whose actions template is empty,
start_work raises IndexError (from the stack[sp] read of the first
do_action), the engine is left with running true, and no instruction is
dispatched (the trace gains no dispatch event). -/
theorem C8_empty_program_raises (env : CallEnv) (fuel : Nat) (s : WState)
    (h : s.actions = []) :
    start_work env (fuel + 1) s = .err .indexError (start_setup s) ∧
    (start_setup s).running = true ∧
    dispatches (start_setup s) = dispatches s := by
  have hst : (start_setup s).stack = [] := by
    unfold start_setup
    split <;> simp [h]
  have htr : (start_setup s).trace = s.trace := by
    unfold start_setup
    split <;> rfl
  refine ⟨?_, rfl, by rw [dispatches, dispatches, htr]⟩
  simp only [start_work, do_action, step, hst]
  rfl

/-- C8 witness: the amended behaviour at the concrete empty program
with one target. -/
theorem C8_empty_program_raises_witness :
    start_work okEnv 10 (init [] ["A"]) =
      .err .indexError (start_setup (init [] ["A"])) ∧
    (start_setup (init [] ["A"])).running = true ∧
    dispatches (start_setup (init [] ["A"])) = dispatches (init [] ["A"]) :=
  C8_empty_program_raises okEnv 9 (init [] ["A"]) rfl

/-- C10: insert_wait calls list.insert with a single argument, so it
raises TypeError for every stack contents and cursor position, leaving
the state unchanged; goto_poi therefore always raises right after
requesting the optimiser on the current target; and when goto_poi runs
as a Call instruction the dispatcher catches the TypeError, logs the
failure, and performs the abandon-current-target recovery (here, with
no targets, the run just finishes normally with running false). -/
theorem C10_insert_wait_always_raises :
    (∀ s : WState, insert_wait s = .error (.typeError, s)) ∧
    (∀ s : WState, goto_poi s =
      .error (.typeError, addEv s (.optimise (current_target s)))) ∧
    resErr c10run = none ∧
    resIsOk c10run = true ∧
    (resState c10run).running = false ∧
    Ev.optimise "_" ∈ (resState c10run).trace ∧
    Ev.log "Running fn0 failed!" ∈ (resState c10run).trace := by
  refine ⟨fun s => rfl, fun s => rfl, by decide, by decide, by decide,
    by decide, by decide⟩

end Workstack
